import Mathlib

/-!
# Verification of the CLI command execution and process-supervision subsystem

Shallow embedding of `src/azure_ml_automation/helpers/cli_runner.py` (class
`CliRunner`) together with the pieces of `config.py` and `logger.py` it uses.
Python `Optional[int]`/`Optional[str]` fields become `Option Nat`/`Option
String`; Python truthiness (`x or y` treats `None`, `0` and `""` as falsy) is
modelled explicitly; exceptions become an error type threaded through
`Except`/explicit outcomes; the log and sleep side effects of a call are
collected into an explicit event trace.
-/

namespace CliRunner

/-! ## Configuration defaults (`config.py`)

`TimeoutConfig.default = 30000` ms, `RetryConfig.max_retries = 3`,
`RetryConfig.delay = 1000` ms. -/

def configDefaultTimeoutMs : Nat := 30000

def configMaxRetries : Nat := 3

def configRetryDelayMs : Nat := 1000

/-! ## Python truthiness helpers

`a or b` in Python yields `b` when `a` is falsy (`None`, `0`, `""`),
otherwise `a`. -/

/-- Python `a or b` for an optional integer `a` and integer default `b`. -/
def pyOrNat (a : Option Nat) (b : Nat) : Nat :=
  match a with
  | some n => if n = 0 then b else n
  | none => b

/-- Python `a or b` for two optional integers. -/
def pyOrOptNat (a b : Option Nat) : Option Nat :=
  match a with
  | some n => if n = 0 then b else some n
  | none => b

/-- Python `a or b` for two optional strings. -/
def pyOrOptStr (a b : Option String) : Option String :=
  match a with
  | some s => if s = "" then b else some s
  | none => b

/-- Python `a or b` for an optional string `a` and string default `b`. -/
def pyOrStr (a : Option String) (b : String) : String :=
  match a with
  | some s => if s = "" then b else s
  | none => b

/-- Python `a or b` for an optional integer exit code and integer default
(`process.returncode or 0`). -/
def pyOrInt (a : Option Int) (b : Int) : Int :=
  match a with
  | some n => if n = 0 then b else n
  | none => b

/-- Python dict merge `{**a, **b}` on association lists: a key present in `b`
takes `b`'s value; a key present only in `a` keeps `a`'s value. -/
def dictMerge (a b : List (String × String)) : List (String × String) :=
  a.filter (fun kv => (b.lookup kv.1).isNone) ++ b

/-! ## Data model (`cli_runner.py`) -/

/-- `CliResult` dataclass: result of a CLI command execution.  The Python
`duration: float` wall-clock field is modelled as an abstract `Nat`. -/
structure CliResult where
  exit_code : Int
  stdout : String
  stderr : String
  duration : Nat
  command : String
  args : List String
  deriving Repr, DecidableEq

/-- `CliOptions` dataclass with its dataclass defaults.  The
`test_logger: Optional[TestLogger]` field is modelled by whether a test
logger is attached (its only observable effect here is which log events are
emitted). -/
structure CliOptions where
  timeout : Option Nat := none
  retries : Option Nat := none
  retry_delay : Option Nat := none
  cwd : Option String := none
  env : Option (List (String × String)) := none
  shell : Bool := true
  encoding : String := "utf-8"
  expect_non_zero_exit : Bool := false
  log_output : Bool := true
  test_logger : Bool := false
  deriving Repr, DecidableEq

/-- Python exception values raised on the paths the claims exercise. -/
inductive PyExc where
  /-- `TypeError`, e.g. from applying `**` to a non-mapping. -/
  | typeError (msg : String)
  /-- `UnboundLocalError` from reading a never-assigned local variable. -/
  | unboundLocal (name : String)
  /-- `RuntimeError(msg)`. -/
  | runtimeError (msg : String)
  /-- `FileNotFoundError`/`PermissionError` from a failed spawn. -/
  | spawnOsError (name : String)
  deriving Repr, DecidableEq

/-- Observable side effects (structured log events and sleeps) of a
`CliRunner.run` call, in emission order. -/
inductive Event where
  /-- `log_cli_command(command, args, cwd=cwd)` (`logger.py`): logs the
  command and its argument list verbatim. -/
  | cliCommandLog (command : String) (args : List String) (cwd : String)
  /-- `test_logger.action("Executing CLI command: ...")`. -/
  | actionLog (command : String) (args : List String) (cwd : String)
  /-- `test_logger.error("CLI command timed out", ..., timeout=timeout)`. -/
  | timedOutLog (timeout : Nat)
  /-- `await self._kill_process(process)`: tree termination triggered. -/
  | treeKill
  /-- `logger.debug("CLI stdout", ...)`. -/
  | stdoutLog (command output : String)
  /-- `logger.debug("CLI stderr", ...)`. -/
  | stderrLog (command output : String)
  /-- `test_logger.error("CLI process error", ...)`. -/
  | processErrorLog (e : PyExc)
  /-- `test_logger.warning("CLI retry attempt {attempt}/{retries} after {delay}s")`. -/
  | retryWarnLog (attempt retries delay : Nat)
  /-- `await asyncio.sleep(delay)`: the backoff sleep, in seconds. -/
  | sleep (secs : Nat)
  /-- `test_logger.info("CLI command completed successfully", ..., attempt=attempt+1)`. -/
  | successLog (attempt : Nat)
  /-- `test_logger.error("CLI command failed on attempt {attempt+1}", ..., attempt=attempt+1)`. -/
  | attemptFailLog (attempt : Nat) (e : PyExc)
  deriving Repr, DecidableEq

/-! ## `_merge_options` -/

/-- `CliRunner._merge_options` (lines 118-134): merge per-call options with
the runner's defaults.  Fields `timeout`, `retries`, `retry_delay`, `cwd`,
`encoding` and `test_logger` use Python `or` (so falsy set values fall back);
`shell` and `log_output` use `x if x is not None else d`, which for a `bool`
field always takes the per-call value; `expect_non_zero_exit` is copied from
the per-call options unconditionally; `env` dicts are merged with the
per-call overlay winning on key collision. -/
def mergeOptions (dflt : CliOptions) (options : Option CliOptions) : CliOptions :=
  match options with
  | none => dflt
  | some o =>
    { timeout := pyOrOptNat o.timeout dflt.timeout
      retries := pyOrOptNat o.retries dflt.retries
      retry_delay := pyOrOptNat o.retry_delay dflt.retry_delay
      cwd := pyOrOptStr o.cwd dflt.cwd
      env := some (dictMerge (dflt.env.getD []) (o.env.getD []))
      shell := o.shell
      encoding := if o.encoding = "" then dflt.encoding else o.encoding
      expect_non_zero_exit := o.expect_non_zero_exit
      log_output := o.log_output
      test_logger := o.test_logger || dflt.test_logger }

/-- `timeout = merged_options.timeout or config.timeouts.default // 1000`. -/
def resolveTimeout (m : CliOptions) : Nat :=
  pyOrNat m.timeout (configDefaultTimeoutMs / 1000)

/-- `retries = merged_options.retries or config.retry.max_retries`. -/
def resolveRetries (m : CliOptions) : Nat :=
  pyOrNat m.retries configMaxRetries

/-- `retry_delay = merged_options.retry_delay or config.retry.delay // 1000`. -/
def resolveRetryDelay (m : CliOptions) : Nat :=
  pyOrNat m.retry_delay (configRetryDelayMs / 1000)

/-! ## `_execute_command` -/

/-- Abstract model of `os.getcwd()`, used when `options.cwd` is falsy. -/
def osGetcwd : String := "/workspace"

/-- The operand of a `**` argument unpacking at a Python call site. -/
inductive StarStarOperand (α : Type) where
  | pyList (xs : List α)
  | pyDict (kvs : List (String × String))

/-- CPython call semantics of `f(..., **x, ...)`: the operand must be a
mapping; a list raises `TypeError` while the call is being assembled, before
`f` runs. -/
def starStarUnpack {α : Type} : StarStarOperand α → Except PyExc (List (String × String))
  | .pyList _ => .error (.typeError "argument after ** must be a mapping, not list")
  | .pyDict kvs => .ok kvs

/-- The `**` operand at the `asyncio.create_subprocess_shell` call site
(lines 168-175): `**([] if options.shell else [process_args])` — a Python
list in both branches. -/
def spawnKwargsOperand (command : String) (args : List String) (shell : Bool) :
    StarStarOperand (List String) :=
  if shell then .pyList [] else .pyList [[command] ++ args]

/-- `CliRunner._execute_command` (lines 136-231), faithfully including its
spawn bug.  The body logs the command (`log_cli_command`, and
`test_logger.action` when a test logger is attached), then evaluates the
`asyncio.create_subprocess_shell(...)` call.  Assembling that call applies
`**` to a list, which raises `TypeError` before any process is spawned or
added to `self.processes`; `except Exception` logs and re-raises it, and
`finally` then evaluates `self.processes.discard(process)` where the local
`process` was never assigned, so the exception that actually escapes is
`UnboundLocalError` for `process`.  Returns the emitted events and the
outcome. -/
def executeCommand (command : String) (args : List String) (o : CliOptions)
    (timeout : Nat) : List Event × Except PyExc CliResult :=
  let cwd := pyOrStr o.cwd osGetcwd
  let preLogs := [Event.cliCommandLog command args cwd] ++
    (if o.test_logger then [Event.actionLog command args cwd] else [])
  match starStarUnpack (spawnKwargsOperand command args o.shell) with
  | .error e =>
    let exceptLogs := if o.test_logger then [Event.processErrorLog e] else []
    (preLogs ++ exceptLogs, .error (.unboundLocal "process"))
  | .ok _ =>
    -- Unreachable: `spawnKwargsOperand` always yields a Python list, so the
    -- unpacking above always raises.
    (preLogs, .error (.unboundLocal "process"))

/-! ## The post-spawn supervision code (lines 181-231)

This is the code that would run on an attempt whose spawn succeeded: race
`process.communicate()` against the timeout, kill the process tree and raise
on expiry, and build the `CliResult` on completion.  It is modelled
separately, parameterised by what the process did. -/

/-- Outcome of `asyncio.wait_for(process.communicate(), timeout=timeout)`:
either the streams were drained and the process reaped before the deadline
(with its `returncode`), or the deadline fired first, `asyncio.TimeoutError`
was raised, and whatever output had been captured so far is lost with the
cancelled `communicate()` call. -/
inductive CommOutcome where
  | finished (stdoutData stderrData : String) (returncode : Option Int)
  | timedOut (partialStdout partialStderr : String)
  deriving Repr, DecidableEq

/-- Lines 181-231 of `_execute_command`, given the communicate outcome.  On
`TimeoutError`: optional test-logger event, `await self._kill_process(...)`,
then `raise RuntimeError(f"Command timed out after {timeout}s")`, which the
outer `except Exception` logs and re-raises.  On completion: decode and
`strip` the captured output, emit the optional stdout/stderr debug logs, and
return a `CliResult` with `exit_code = process.returncode or 0`. -/
def afterSpawn (command : String) (args : List String) (o : CliOptions)
    (timeout : Nat) (outcome : CommOutcome) (duration : Nat) :
    List Event × Except PyExc CliResult :=
  match outcome with
  | .timedOut _ _ =>
    let e : PyExc := .runtimeError ("Command timed out after " ++ toString timeout ++ "s")
    ((if o.test_logger then [Event.timedOutLog timeout] else []) ++
      [Event.treeKill] ++
      (if o.test_logger then [Event.processErrorLog e] else []),
     .error e)
  | .finished stdoutData stderrData returncode =>
    let stdout := stdoutData.trim
    let stderr := stderrData.trim
    let outLogs :=
      if o.log_output then
        (if stdout ≠ "" then [Event.stdoutLog command stdout] else []) ++
        (if stderr ≠ "" then [Event.stderrLog command stderr] else [])
      else []
    (outLogs,
     .ok { exit_code := pyOrInt returncode 0
           stdout := stdout
           stderr := stderr
           duration := duration
           command := command
           args := args })

/-! ## `run`: the retry orchestrator (lines 49-116) -/

/-- Success/failure classification inside the `try` of the retry loop
(lines 82-86): a result whose exit code is non-zero raises `RuntimeError`
unless `expect_non_zero_exit` is set; otherwise the result is returned. -/
def classify (expect_non_zero_exit : Bool) (res : Except PyExc CliResult) :
    Except PyExc CliResult :=
  match res with
  | .error e => .error e
  | .ok r =>
    if !expect_non_zero_exit && r.exit_code ≠ 0 then
      .error (.runtimeError
        ("Command failed with exit code " ++ toString r.exit_code ++ ": " ++ r.stderr))
    else .ok r

/-- Terminal outcome of `CliRunner.run`, together with the number of
attempts that were made before returning or raising. -/
inductive RunOutcome where
  | ok (r : CliResult) (attempts : Nat)
  | raised (e : PyExc) (attempts : Nat)
  deriving Repr, DecidableEq

/-- Attempt count carried by a `RunOutcome`. -/
def RunOutcome.attempts : RunOutcome → Nat
  | .ok _ n => n
  | .raised _ n => n

/-- The `if attempt > 0:` prologue of a loop iteration: the retry warning
(when a test logger is attached) and the backoff sleep of
`retry_delay * 2 ** (attempt - 1)` seconds. -/
def runPre (o : CliOptions) (retry_delay retries attempt : Nat) : List Event :=
  if attempt > 0 then
    (if o.test_logger then
      [Event.retryWarnLog attempt retries (retry_delay * 2 ^ (attempt - 1))] else []) ++
    [Event.sleep (retry_delay * 2 ^ (attempt - 1))]
  else []

/-- The `for attempt in range(retries + 1)` loop of `run`, from attempt
index `attempt` with `remaining` further attempts allowed after this one.
Each iteration emits the prologue, runs the attempt, classifies the
outcome, and either returns the result, retries, or (on the final attempt)
raises the last error. -/
def runAux (exec : Nat → List Event × Except PyExc CliResult) (o : CliOptions)
    (retry_delay retries : Nat) : Nat → Nat → List Event × RunOutcome
  | 0, attempt =>
    match classify o.expect_non_zero_exit (exec attempt).2 with
    | .ok r =>
      (runPre o retry_delay retries attempt ++ (exec attempt).1 ++
        (if o.test_logger then [Event.successLog (attempt + 1)] else []),
       .ok r (attempt + 1))
    | .error e =>
      (runPre o retry_delay retries attempt ++ (exec attempt).1 ++
        (if o.test_logger then [Event.attemptFailLog (attempt + 1) e] else []),
       .raised e (attempt + 1))
  | rem + 1, attempt =>
    match classify o.expect_non_zero_exit (exec attempt).2 with
    | .ok r =>
      (runPre o retry_delay retries attempt ++ (exec attempt).1 ++
        (if o.test_logger then [Event.successLog (attempt + 1)] else []),
       .ok r (attempt + 1))
    | .error e =>
      let next := runAux exec o retry_delay retries rem (attempt + 1)
      (runPre o retry_delay retries attempt ++ (exec attempt).1 ++
        (if o.test_logger then [Event.attemptFailLog (attempt + 1) e] else []) ++
        next.1,
       next.2)

/-- `CliRunner.run(command, args, options)` (lines 49-116), parameterised by
the per-attempt executor `exec` (which receives the merged options, the
resolved timeout, and the attempt index).  Resolves the merged options and
the timeout/retries/retry-delay knobs exactly as the source does (Python
`or` against the config defaults), then runs the attempt loop. -/
def run (dflt : CliOptions) (options : Option CliOptions)
    (exec : CliOptions → Nat → Nat → List Event × Except PyExc CliResult)
    : List Event × RunOutcome :=
  let m := mergeOptions dflt options
  let timeout := resolveTimeout m
  let retries := resolveRetries m
  let retry_delay := resolveRetryDelay m
  runAux (exec m timeout) m retry_delay retries retries 0

/-- `CliRunner.run` with the actual `_execute_command` as the per-attempt
executor — the composition the source ships. -/
def runActual (dflt : CliOptions) (options : Option CliOptions)
    (command : String) (args : List String) : List Event × RunOutcome :=
  run dflt options (fun m timeout _ => executeCommand command args m timeout)

/-- The backoff sleeps occurring in an event trace, in order. -/
def sleepsOf (ev : List Event) : List Nat :=
  ev.filterMap (fun e => match e with | .sleep d => some d | _ => none)

/-! ## `_kill_process`: two-phase tree termination (lines 238-287)

The psutil interactions are modelled by recording, for each process in the
tree, what each signalling call would do: succeed, raise
`psutil.NoSuchProcess`, or raise an unexpected error such as
`psutil.AccessDenied`.  The descendant set is the snapshot
`parent.children(recursive=True)` taken on entry (a static process tree).
The asyncio-handle fallback calls (`process.terminate()`/`process.kill()`)
are modelled as succeeding. -/

/-- Result of one psutil signalling call on one process. -/
inductive SigOutcome where
  /-- The signal is delivered. -/
  | ok
  /-- `psutil.NoSuchProcess`: the process exited between enumeration and
  signalling. -/
  | noSuchProcess
  /-- An unexpected error, e.g. `psutil.AccessDenied`. -/
  | accessDenied
  deriving Repr, DecidableEq

/-- Per-process view of the termination sweep: the pid, what `terminate()`
does, whether the process is still running after the grace period, and what
`kill()` does. -/
structure ProcSig where
  pid : Nat
  termOutcome : SigOutcome := .ok
  runningAfterGrace : Bool := false
  killOutcome : SigOutcome := .ok
  deriving Repr, DecidableEq

/-- The asyncio process handle as `_kill_process` sees it: its pid (Python
`if process.pid:` is a truthiness test, so pid 0 skips the tree logic), its
`returncode` (`None` while running), and whether it is still running when
the fallback path re-checks `returncode` after its 1-second sleep. -/
structure ProcHandle where
  pid : Nat
  returncode : Option Int := none
  stillRunningAfterFallbackTerm : Bool := true
  deriving Repr, DecidableEq

/-- Observable steps of `_kill_process`. -/
inductive KEvent where
  /-- A delivered graceful `terminate()` signal. -/
  | term (pid : Nat)
  /-- `await asyncio.sleep(secs)`. -/
  | wait (secs : Nat)
  /-- A delivered forceful `kill()` signal. -/
  | kill (pid : Nat)
  /-- `logger.warning("Failed to kill process tree", pid=..., error=...)`. -/
  | warnTreeKillFailed (pid : Nat)
  /-- Fallback `process.terminate()` on the asyncio handle. -/
  | fallbackTerm (pid : Nat)
  /-- Fallback `process.kill()` on the asyncio handle. -/
  | fallbackKill (pid : Nat)
  deriving Repr, DecidableEq

/-- One guarded signalling call (`try: ... except psutil.NoSuchProcess:
pass`): on success the signal event is recorded; `NoSuchProcess` is
swallowed; an unexpected error escapes the inner guard (second component
`true`). -/
def trySignal (outcome : SigOutcome) (ev : KEvent) : List KEvent × Bool :=
  match outcome with
  | .ok => ([ev], false)
  | .noSuchProcess => ([], false)
  | .accessDenied => ([], true)

/-- Run one guarded call per child in order, stopping at the first escaping
exception (Python exception propagation out of the `for` loop). -/
def sweepList (f : ProcSig → List KEvent × Bool) : List ProcSig → List KEvent × Bool
  | [] => ([], false)
  | c :: cs =>
    let (ev, exc) := f c
    if exc then (ev, true)
    else
      let (ev2, exc2) := sweepList f cs
      (ev ++ ev2, exc2)

/-- Phase 1 on the children: `for child in children: try: child.terminate()
except psutil.NoSuchProcess: pass`. -/
def termPhase (cs : List ProcSig) : List KEvent × Bool :=
  sweepList (fun c => trySignal c.termOutcome (.term c.pid)) cs

/-- Phase 2 on the children: `for child in children: try: if
child.is_running(): child.kill() except psutil.NoSuchProcess: pass`. -/
def killPhase (cs : List ProcSig) : List KEvent × Bool :=
  sweepList
    (fun c => if c.runningAfterGrace then trySignal c.killOutcome (.kill c.pid)
              else ([], false))
    cs

/-- The fallback of the outer `except Exception` (lines 274-287): log a
warning, `process.terminate()`, sleep 1 s, and `process.kill()` if the
handle still reports no `returncode`. -/
def killFallback (p : ProcHandle) : List KEvent :=
  [KEvent.warnTreeKillFailed p.pid, KEvent.fallbackTerm p.pid, KEvent.wait 1] ++
  (if p.stillRunningAfterFallbackTerm then [KEvent.fallbackKill p.pid] else [])

/-- `CliRunner._kill_process` (lines 238-287).  Returns the ordered trace of
its observable steps; it never raises to its caller.  `lookupRaises` models
`psutil.Process(process.pid)` or the enumeration itself raising (handled by
the outer `except Exception`); `parent` is the psutil view of the spawned
process itself and `children` the recursive-descendant snapshot. -/
def killProcess (p : ProcHandle) (lookupRaises : Bool) (parent : ProcSig)
    (children : List ProcSig) : List KEvent :=
  if p.returncode.isSome then []
  else if p.pid = 0 then []
  else if lookupRaises then killFallback p
  else
    let (e1, x1) := termPhase children
    if x1 then e1 ++ killFallback p
    else
      let (e2, x2) := trySignal parent.termOutcome (.term p.pid)
      if x2 then e1 ++ e2 ++ killFallback p
      else
        let e3 := [KEvent.wait 2]
        let (e4, x4) := killPhase children
        if x4 then e1 ++ e2 ++ e3 ++ e4 ++ killFallback p
        else
          let (e5, x5) :=
            if parent.runningAfterGrace then trySignal parent.killOutcome (.kill p.pid)
            else ([], false)
          if x5 then e1 ++ e2 ++ e3 ++ e4 ++ e5 ++ killFallback p
          else e1 ++ e2 ++ e3 ++ e4 ++ e5

/-! ## `az_login_service_principal` (lines 298-323) -/

/-- The argument list `az_login_service_principal` builds: the client secret
is passed in clear as the value of `-p`. -/
def azLoginServicePrincipalArgs (client_id client_secret tenant_id : String) :
    List String :=
  ["login", "--service-principal", "-u", client_id, "-p", client_secret,
   "--tenant", tenant_id]

/-- `CliRunner.az_login_service_principal`: copies the caller's options (or
a fresh `CliOptions()`), sets `log_output = False` (source comment: don't
log secrets), and calls `run("az", [...])` with the secret in the argument
list. -/
def azLoginServicePrincipal (dflt : CliOptions) (options : Option CliOptions)
    (client_id client_secret tenant_id : String) : List Event × RunOutcome :=
  let safe_options : CliOptions := { options.getD {} with log_output := false }
  runActual dflt (some safe_options) "az"
    (azLoginServicePrincipalArgs client_id client_secret tenant_id)

/-! ## Helper lemmas -/

/-- If every attempt classifies as a failure (`errs n` being the error of
attempt `n`), the retry loop runs all its iterations and raises the error of
the last one, having made `attempt + remaining + 1` attempts. -/
theorem runAux_allFail (exec : Nat → List Event × Except PyExc CliResult)
    (o : CliOptions) (rd retries : Nat) (errs : Nat → PyExc)
    (herr : ∀ n, classify o.expect_non_zero_exit (exec n).2 = .error (errs n)) :
    ∀ remaining attempt,
      (runAux exec o rd retries remaining attempt).2 =
        .raised (errs (attempt + remaining)) (attempt + remaining + 1) := by
  intro remaining
  induction remaining with
  | zero =>
    intro attempt
    simp only [runAux, herr attempt, Nat.add_zero]
  | succ rem ih =>
    intro attempt
    have h2 := ih (attempt + 1)
    simp only [runAux, herr attempt]
    rw [h2]
    congr 2 <;> omega

/-! ## Claims -/

/-- C1 (counterexample): with per-call `retries = 0` — which per the claim
means a single attempt and no retry — a command whose every attempt fails is
attempted 4 times, not 1: Python `or` treats the set value `0` as unset and
falls back to `config.retry.max_retries = 3`. -/
theorem C1_zero_retries_counterexample :
    (runActual {} (some { retries := some 0 }) "cmd" []).2.attempts = 4 ∧
    (4 : Nat) ≠ 0 + 1 := by
  constructor
  · rfl
  · decide

/-- C1 (amended): for every per-call retry limit `N ≥ 1`, a command whose
every attempt fails is attempted exactly `N + 1` times and `run` raises the
failure of the last attempt, never succeeding after exhaustion.  (For
`N = 0` the value is treated as unset by Python `or` and the config default
of 3 retries applies instead; the attempt count `N + 1` is reported by the
final per-attempt failure log event, not inside the raised error itself.) -/
theorem C1_retries_amended (dflt opts : CliOptions) (N : Nat)
    (exec : CliOptions → Nat → Nat → List Event × Except PyExc CliResult)
    (errs : Nat → PyExc)
    (hN : 1 ≤ N) (hret : opts.retries = some N)
    (hfail : ∀ n,
      classify (mergeOptions dflt (some opts)).expect_non_zero_exit
        ((exec (mergeOptions dflt (some opts))
          (resolveTimeout (mergeOptions dflt (some opts))) n)).2 = .error (errs n)) :
    (run dflt (some opts) exec).2 = .raised (errs N) (N + 1) := by
  have hm : (mergeOptions dflt (some opts)).retries = some N := by
    simp only [mergeOptions, pyOrOptNat, hret]
    rw [if_neg (by omega)]
  have hres : resolveRetries (mergeOptions dflt (some opts)) = N := by
    simp only [resolveRetries, pyOrNat, hm]
    rw [if_neg (by omega)]
  have key := runAux_allFail
    (exec (mergeOptions dflt (some opts)) (resolveTimeout (mergeOptions dflt (some opts))))
    (mergeOptions dflt (some opts))
    (resolveRetryDelay (mergeOptions dflt (some opts)))
    (resolveRetries (mergeOptions dflt (some opts))) errs hfail
    (resolveRetries (mergeOptions dflt (some opts))) 0
  rw [hres] at key
  simpa [run, hres] using key

/-- C1 witness: `retries = 2` with an always-failing executor makes exactly
3 attempts and raises the last failure. -/
theorem C1_retries_amended_witness :
    (run {} (some { retries := some 2 })
      (fun _ _ _ => ([], .error (.runtimeError "boom")))).2 =
      .raised (.runtimeError "boom") 3 := by
  exact C1_retries_amended {} { retries := some 2 } 2
    (fun _ _ _ => ([], .error (.runtimeError "boom")))
    (fun _ => .runtimeError "boom")
    (by decide) rfl (fun n => rfl)

/-- C2: `_execute_command` raises on every input before any process is
spawned or registered — assembling the spawn call applies `**` to a list,
raising `TypeError`, and the `finally` block then hits the unassigned local
`process`, so `UnboundLocalError` escapes — and consequently `run` never
returns a `CliResult`: for every default options, per-call options, command
and argument list it raises `UnboundLocalError` after exhausting all
attempts. -/
theorem C2_execute_always_raises (command : String) (args : List String)
    (o : CliOptions) (timeout : Nat) (dflt : CliOptions) (options : Option CliOptions) :
    (executeCommand command args o timeout).2 = .error (.unboundLocal "process") ∧
    (runActual dflt options command args).2 =
      .raised (.unboundLocal "process")
        (resolveRetries (mergeOptions dflt options) + 1) := by
  constructor
  · cases hs : o.shell <;>
      simp [executeCommand, spawnKwargsOperand, starStarUnpack, hs]
  · have hfail : ∀ n : Nat,
        classify (mergeOptions dflt options).expect_non_zero_exit
          ((executeCommand command args (mergeOptions dflt options)
            (resolveTimeout (mergeOptions dflt options))).2) =
          .error (.unboundLocal "process") := by
      intro n
      have : (executeCommand command args (mergeOptions dflt options)
          (resolveTimeout (mergeOptions dflt options))).2 =
          .error (.unboundLocal "process") := by
        cases hs : (mergeOptions dflt options).shell <;>
          simp [executeCommand, spawnKwargsOperand, starStarUnpack, hs]
      rw [this]
      rfl
    have := runAux_allFail
      (fun _ => executeCommand command args (mergeOptions dflt options)
        (resolveTimeout (mergeOptions dflt options)))
      (mergeOptions dflt options)
      (resolveRetryDelay (mergeOptions dflt options))
      (resolveRetries (mergeOptions dflt options))
      (fun _ => .unboundLocal "process")
      (fun n => hfail n)
      (resolveRetries (mergeOptions dflt options)) 0
    simpa [runActual, run] using this

/-- C3 (counterexample): the failure produced on deadline expiry does not
carry the partial output captured before expiry — the post-spawn code
produces the identical events and identical raised error whether the
partial output was `"partial stdout"`/`"partial stderr"` or empty, so no
caller can recover it. -/
theorem C3_timeout_discards_output_counterexample :
    afterSpawn "az" [] {} 5 (.timedOut "partial stdout" "partial stderr") 0 =
      afterSpawn "az" [] {} 5 (.timedOut "" "") 0 ∧
    ("partial stdout" : String) ≠ "" := by
  exact ⟨rfl, by decide⟩

/-- C3 (amended): in the post-spawn supervision code, a `CliResult` (with
its exit code) is produced exactly when `communicate()` finished before the
deadline; on deadline expiry, tree termination is triggered and then a
timeout failure is raised instead of returning a `Result` — but that
failure carries only the timeout duration, not the partial output. -/
theorem C3_result_iff_completion_amended (command : String) (args : List String)
    (o : CliOptions) (timeout duration : Nat) (stdoutData stderrData : String)
    (returncode : Option Int) (pout perr : String) :
    (∃ r : CliResult,
      (afterSpawn command args o timeout
        (.finished stdoutData stderrData returncode) duration).2 = .ok r ∧
      r.exit_code = pyOrInt returncode 0) ∧
    ((afterSpawn command args o timeout (.timedOut pout perr) duration).2 =
      .error (.runtimeError ("Command timed out after " ++ toString timeout ++ "s")) ∧
     Event.treeKill ∈
      (afterSpawn command args o timeout (.timedOut pout perr) duration).1) := by
  refine ⟨⟨_, rfl, rfl⟩, rfl, ?_⟩
  by_cases ht : o.test_logger <;> simp [afterSpawn, ht]

/-- Unfolding one step of the guarded per-child sweep: the head's events
come first, and an escaping exception from the head drops the rest. -/
theorem sweepList_cons (f : ProcSig → List KEvent × Bool) (c : ProcSig)
    (cs : List ProcSig) :
    sweepList f (c :: cs) =
      if (f c).2 then ((f c).1, true)
      else ((f c).1 ++ (sweepList f cs).1, (sweepList f cs).2) := by
  rcases hf : f c with ⟨ev, exc⟩
  cases exc
  · simp [sweepList, hf]
  · simp [sweepList, hf]

/-- `termPhase` when every child's `terminate()` succeeds: every child is
signalled, in order, and no exception escapes. -/
theorem termPhase_ok (cs : List ProcSig) (h : ∀ c ∈ cs, c.termOutcome = .ok) :
    termPhase cs = (cs.map (fun c => KEvent.term c.pid), false) := by
  induction cs with
  | nil => rfl
  | cons c cs ih =>
    have hc : trySignal c.termOutcome (KEvent.term c.pid) =
        ([KEvent.term c.pid], false) := by
      rw [h c (List.mem_cons_self c cs)]
      rfl
    have hrest := ih (fun x hx => h x (List.mem_cons_of_mem c hx))
    unfold termPhase at hrest ⊢
    rw [sweepList_cons]
    simp only [hc, hrest]
    simp

/-- `killPhase` when every child's `kill()` succeeds: exactly the children
still running after the grace period are signalled, in order. -/
theorem killPhase_ok (cs : List ProcSig) (h : ∀ c ∈ cs, c.killOutcome = .ok) :
    killPhase cs =
      ((cs.filter (fun c => c.runningAfterGrace)).map (fun c => KEvent.kill c.pid),
       false) := by
  induction cs with
  | nil => rfl
  | cons c cs ih =>
    have hrest := ih (fun x hx => h x (List.mem_cons_of_mem c hx))
    unfold killPhase at hrest ⊢
    rw [sweepList_cons]
    by_cases hr : c.runningAfterGrace
    · have hc : trySignal c.killOutcome (KEvent.kill c.pid) =
          ([KEvent.kill c.pid], false) := by
        rw [h c (List.mem_cons_self c cs)]
        rfl
      simp only [hr, if_true, hc, hrest]
      simp [List.filter_cons, hr]
    · simp only [hr]
      simp only [if_false, hrest]
      simp [List.filter_cons, hr]

/-- C4: when tree termination is triggered for a live spawned process, the
sweep first sends `terminate()` to every enumerated descendant (children
before the parent), then terminates the parent, waits the 2-second grace
period, and finally sends `kill()` to exactly the processes of the tree
still running, children first and the parent last.  (The descendant set is
the recursive `children` snapshot taken on entry.) -/
theorem C4_tree_termination (p : ProcHandle) (parent : ProcSig)
    (children : List ProcSig)
    (halive : p.returncode = none) (hpid : p.pid ≠ 0)
    (hterm : ∀ c ∈ children, c.termOutcome = .ok)
    (hkill : ∀ c ∈ children, c.killOutcome = .ok)
    (hpterm : parent.termOutcome = .ok) (hpkill : parent.killOutcome = .ok) :
    killProcess p false parent children =
      children.map (fun c => KEvent.term c.pid) ++ [KEvent.term p.pid] ++
      [KEvent.wait 2] ++
      (children.filter (fun c => c.runningAfterGrace)).map
        (fun c => KEvent.kill c.pid) ++
      (if parent.runningAfterGrace then [KEvent.kill p.pid] else []) := by
  have h1 := termPhase_ok children hterm
  have h2 := killPhase_ok children hkill
  by_cases hr : parent.runningAfterGrace <;>
    simp [killProcess, halive, hpid, h1, h2, trySignal, hpterm, hpkill, hr]

/-- C4 witness: a live process 100 with descendants 101 (already exited by
the grace check) and 102 (still running): both children are terminated
first, then the parent; after the wait, 102 and the parent are killed. -/
theorem C4_tree_termination_witness :
    killProcess { pid := 100 } false
      { pid := 100, runningAfterGrace := true }
      [{ pid := 101 }, { pid := 102, runningAfterGrace := true }] =
      [KEvent.term 101, KEvent.term 102, KEvent.term 100, KEvent.wait 2,
       KEvent.kill 102, KEvent.kill 100] := by
  rw [C4_tree_termination _ _ _ rfl (by decide) (by decide) (by decide) rfl rfl]
  decide

/-- C5 (counterexample): a spawn failure is not returned immediately as a
non-retryable failure — with `retries = 1`, an executor whose every attempt
fails with the spawn error (`FileNotFoundError` for a missing binary) is
attempted twice: the generic `except Exception` of the retry loop catches
the spawn failure and retries it. -/
theorem C5_spawn_failure_retried_counterexample :
    (run {} (some { retries := some 1 })
      (fun _ _ _ => ([], .error (.spawnOsError "az")))).2 =
      .raised (.spawnOsError "az") 2 ∧
    (2 : Nat) ≠ 1 := by
  constructor
  · rfl
  · decide

/-- C5 (amended): spawn failures flow through the same generic exception
handling as every other failure: with per-call retry limit `N ≥ 1`, an
executor whose every attempt fails with a spawn error is attempted `N + 1`
times, and only after exhaustion is the spawn failure raised to the caller;
there is no distinct non-retryable `SpawnFailed` classification. -/
theorem C5_spawn_failure_amended (dflt opts : CliOptions) (N : Nat)
    (binary : String)
    (exec : CliOptions → Nat → Nat → List Event × Except PyExc CliResult)
    (hN : 1 ≤ N) (hret : opts.retries = some N)
    (hspawn : ∀ n : Nat,
      (exec (mergeOptions dflt (some opts))
        (resolveTimeout (mergeOptions dflt (some opts))) n).2 =
        .error (.spawnOsError binary)) :
    (run dflt (some opts) exec).2 = .raised (.spawnOsError binary) (N + 1) := by
  have hm : (mergeOptions dflt (some opts)).retries = some N := by
    simp only [mergeOptions, pyOrOptNat, hret]
    rw [if_neg (by omega)]
  have hres : resolveRetries (mergeOptions dflt (some opts)) = N := by
    simp only [resolveRetries, pyOrNat, hm]
    rw [if_neg (by omega)]
  have hfail : ∀ n : Nat,
      classify (mergeOptions dflt (some opts)).expect_non_zero_exit
        ((exec (mergeOptions dflt (some opts))
          (resolveTimeout (mergeOptions dflt (some opts))) n)).2 =
        .error (.spawnOsError binary) := by
    intro n
    rw [hspawn n]
    rfl
  have key := runAux_allFail
    (exec (mergeOptions dflt (some opts)) (resolveTimeout (mergeOptions dflt (some opts))))
    (mergeOptions dflt (some opts))
    (resolveRetryDelay (mergeOptions dflt (some opts)))
    (resolveRetries (mergeOptions dflt (some opts)))
    (fun _ => .spawnOsError binary) hfail
    (resolveRetries (mergeOptions dflt (some opts))) 0
  rw [hres] at key
  simpa [run, hres] using key

/-- C5 witness: with `retries = 2` and a spawn that fails on every attempt
(missing `az` binary), three attempts are made before the spawn failure is
raised. -/
theorem C5_spawn_failure_amended_witness :
    (run {} (some { retries := some 2 })
      (fun _ _ _ => ([], .error (.spawnOsError "az")))).2 =
      .raised (.spawnOsError "az") 3 := by
  exact C5_spawn_failure_amended {} { retries := some 2 } 2 "az"
    (fun _ _ _ => ([], .error (.spawnOsError "az")))
    (by decide) rfl (fun _ => rfl)

/-- The backoff sleeps of a prologue: exactly one sleep of
`rd * 2 ^ (attempt - 1)` seconds before every attempt but the first. -/
theorem sleepsOf_runPre (o : CliOptions) (rd retries attempt : Nat) :
    sleepsOf (runPre o rd retries attempt) =
      if attempt > 0 then [rd * 2 ^ (attempt - 1)] else [] := by
  by_cases h : attempt > 0 <;>
    by_cases ht : o.test_logger <;>
      simp [runPre, sleepsOf, h, ht]

/-- `sleepsOf` distributes over trace concatenation. -/
theorem sleepsOf_append (a b : List Event) :
    sleepsOf (a ++ b) = sleepsOf a ++ sleepsOf b := by
  simp [sleepsOf]

/-- Log-only event lists contribute no sleeps. -/
theorem sleepsOf_attemptFailLog (a : Nat) (e : PyExc) :
    sleepsOf [Event.attemptFailLog a e] = [] := rfl

/-- The empty trace has no sleeps. -/
theorem sleepsOf_nil : sleepsOf [] = [] := rfl

/-- The optional per-attempt failure log contributes no sleeps. -/
theorem sleepsOf_failLogIf (c : Bool) (a : Nat) (e : PyExc) :
    sleepsOf (if c = true then [Event.attemptFailLog a e] else []) = [] := by
  cases c <;> rfl

/-- Backoff sleeps of the retry loop started at attempt `attempt >= 1` when
every attempt fails and the attempts themselves sleep nothing: one sleep per
iteration, the `i`-th being `rd * 2 ^ (attempt - 1 + i)`. -/
theorem runAux_allFail_sleeps (exec : Nat → List Event × Except PyExc CliResult)
    (o : CliOptions) (rd retries : Nat) (errs : Nat → PyExc)
    (herr : ∀ n, classify o.expect_non_zero_exit (exec n).2 = .error (errs n))
    (hq : ∀ n, sleepsOf (exec n).1 = []) :
    ∀ remaining attempt, 1 ≤ attempt →
      sleepsOf (runAux exec o rd retries remaining attempt).1 =
        (List.range (remaining + 1)).map (fun i => rd * 2 ^ (attempt - 1 + i)) := by
  intro remaining
  induction remaining with
  | zero =>
    intro attempt ha
    simp only [runAux, herr attempt]
    rw [sleepsOf_append, sleepsOf_append, sleepsOf_runPre,
      if_pos (Nat.lt_of_lt_of_le Nat.zero_lt_one ha), hq, sleepsOf_failLogIf,
      List.range_succ_eq_map]
    simp
  | succ rem ih =>
    intro attempt ha
    have hnext := ih (attempt + 1) (by omega)
    simp only [runAux, herr attempt]
    rw [sleepsOf_append, sleepsOf_append, sleepsOf_append, sleepsOf_runPre,
      if_pos (Nat.lt_of_lt_of_le Nat.zero_lt_one ha), hq, sleepsOf_failLogIf,
      hnext]
    have hstep : ((fun i => rd * 2 ^ (attempt - 1 + i)) ∘ Nat.succ) =
        (fun i => rd * 2 ^ (attempt + 1 - 1 + i)) := by
      funext i
      show rd * 2 ^ (attempt - 1 + (i + 1)) = rd * 2 ^ (attempt + 1 - 1 + i)
      have h : attempt - 1 + (i + 1) = attempt + 1 - 1 + i := by omega
      rw [h]
    conv_rhs => rw [List.range_succ_eq_map]
    rw [List.map_cons, List.map_map, hstep]
    simp

/-- Backoff sleeps of the full loop (started at attempt 0) when every
attempt fails: the sleep before retry `i + 1` is `rd * 2 ^ i`. -/
theorem runAux_allFail_sleeps_zero (exec : Nat → List Event × Except PyExc CliResult)
    (o : CliOptions) (rd retries : Nat) (errs : Nat → PyExc)
    (herr : ∀ n, classify o.expect_non_zero_exit (exec n).2 = .error (errs n))
    (hq : ∀ n, sleepsOf (exec n).1 = []) :
    ∀ remaining,
      sleepsOf (runAux exec o rd retries remaining 0).1 =
        (List.range remaining).map (fun i => rd * 2 ^ i) := by
  intro remaining
  have hpre : sleepsOf (runPre o rd retries 0) = [] := by
    rw [sleepsOf_runPre]
    simp
  cases remaining with
  | zero =>
    simp only [runAux, herr 0]
    rw [sleepsOf_append, sleepsOf_append, hpre, hq, sleepsOf_failLogIf]
    rfl
  | succ rem =>
    have hnext := runAux_allFail_sleeps exec o rd retries errs herr hq rem 1 le_rfl
    have hshift : (fun i => rd * 2 ^ (1 - 1 + i)) = (fun i => rd * 2 ^ i) := by
      funext i
      simp
    rw [hshift] at hnext
    simp only [runAux, herr 0]
    rw [sleepsOf_append, sleepsOf_append, sleepsOf_append, hpre, hq,
      sleepsOf_failLogIf, hnext]
    simp

/-- C6: with per-call base delay `d ≥ 1` and retry limit `N ≥ 1`, when every
attempt of a command fails (and the attempts themselves sleep nothing), the
backoff sleeps inserted by `run` are exactly `d * 2^0, d * 2^1, ...,
d * 2^(N-1)` in order — the sleep between attempt `i` and attempt `i + 1`
is `d * 2 ^ i`, with exponent 0 before the first retry — and this sequence
is monotonically non-decreasing. -/
theorem C6_backoff (dflt opts : CliOptions) (N d : Nat)
    (exec : CliOptions → Nat → Nat → List Event × Except PyExc CliResult)
    (errs : Nat → PyExc)
    (hN : 1 ≤ N) (hd : 1 ≤ d)
    (hret : opts.retries = some N) (hdel : opts.retry_delay = some d)
    (hfail : ∀ n,
      classify (mergeOptions dflt (some opts)).expect_non_zero_exit
        ((exec (mergeOptions dflt (some opts))
          (resolveTimeout (mergeOptions dflt (some opts))) n)).2 = .error (errs n))
    (hq : ∀ n, sleepsOf ((exec (mergeOptions dflt (some opts))
      (resolveTimeout (mergeOptions dflt (some opts))) n)).1 = []) :
    sleepsOf (run dflt (some opts) exec).1 =
      (List.range N).map (fun i => d * 2 ^ i) ∧
    (sleepsOf (run dflt (some opts) exec).1).Pairwise (· ≤ ·) := by
  have hmret : (mergeOptions dflt (some opts)).retries = some N := by
    simp only [mergeOptions, pyOrOptNat, hret]
    rw [if_neg (by omega)]
  have hres : resolveRetries (mergeOptions dflt (some opts)) = N := by
    simp only [resolveRetries, pyOrNat, hmret]
    rw [if_neg (by omega)]
  have hmdel : (mergeOptions dflt (some opts)).retry_delay = some d := by
    simp only [mergeOptions, pyOrOptNat, hdel]
    rw [if_neg (by omega)]
  have hrd : resolveRetryDelay (mergeOptions dflt (some opts)) = d := by
    simp only [resolveRetryDelay, pyOrNat, hmdel]
    rw [if_neg (by omega)]
  have key := runAux_allFail_sleeps_zero
    (exec (mergeOptions dflt (some opts)) (resolveTimeout (mergeOptions dflt (some opts))))
    (mergeOptions dflt (some opts))
    (resolveRetryDelay (mergeOptions dflt (some opts)))
    (resolveRetries (mergeOptions dflt (some opts))) errs hfail hq
    (resolveRetries (mergeOptions dflt (some opts)))
  rw [hres, hrd] at key
  have hmain : sleepsOf (run dflt (some opts) exec).1 =
      (List.range N).map (fun i => d * 2 ^ i) := by
    simpa [run, hres, hrd] using key
  refine ⟨hmain, ?_⟩
  rw [hmain]
  rw [List.pairwise_map]
  exact (List.pairwise_lt_range N).imp
    (fun h => Nat.mul_le_mul le_rfl
      (Nat.pow_le_pow_right (by norm_num) (Nat.le_of_lt h)))

/-- C6 witness: `retries = 3`, `retry_delay = 2`: the three backoff sleeps
are 2 s, 4 s, 8 s. -/
theorem C6_backoff_witness :
    sleepsOf (run {} (some { retries := some 3, retry_delay := some 2 })
      (fun _ _ _ => ([], .error (.runtimeError "x")))).1 = [2, 4, 8] := by
  have h := C6_backoff {} { retries := some 3, retry_delay := some 2 } 3 2
    (fun _ _ _ => ([], .error (.runtimeError "x")))
    (fun _ => .runtimeError "x")
    (by decide) (by decide) rfl rfl (fun _ => rfl) (fun _ => rfl)
  rw [h.1]
  decide

/-- If the very first attempt classifies as a success, the loop returns that
result after exactly one attempt, whatever the retry budget. -/
theorem runAux_okFirst (exec : Nat → List Event × Except PyExc CliResult)
    (o : CliOptions) (rd retries : Nat) (r : CliResult)
    (hok : classify o.expect_non_zero_exit (exec 0).2 = .ok r) :
    ∀ remaining, (runAux exec o rd retries remaining 0).2 = .ok r 1 := by
  intro remaining
  cases remaining <;> simp [runAux, hok]

/-- C7: classification of a completed attempt.  If the first attempt's
process completes: with `expect_non_zero_exit` unset, exit code 0 yields the
result as a success after exactly one attempt (the caller never sees a
retry), and a non-zero exit code is classified as a failure
(`RuntimeError`); with `expect_non_zero_exit` set, the completed result is
returned as a success after one attempt regardless of its exit code. -/
theorem C7_success_classification (dflt opts : CliOptions) (r : CliResult)
    (exec : CliOptions → Nat → Nat → List Event × Except PyExc CliResult)
    (hexec : (exec (mergeOptions dflt (some opts))
      (resolveTimeout (mergeOptions dflt (some opts))) 0).2 = .ok r) :
    (opts.expect_non_zero_exit = false → r.exit_code = 0 →
      (run dflt (some opts) exec).2 = .ok r 1) ∧
    (opts.expect_non_zero_exit = false → r.exit_code ≠ 0 →
      classify (mergeOptions dflt (some opts)).expect_non_zero_exit (.ok r) =
        .error (.runtimeError ("Command failed with exit code " ++
          toString r.exit_code ++ ": " ++ r.stderr))) ∧
    (opts.expect_non_zero_exit = true →
      (run dflt (some opts) exec).2 = .ok r 1) := by
  have hmerge : (mergeOptions dflt (some opts)).expect_non_zero_exit =
      opts.expect_non_zero_exit := rfl
  refine ⟨?_, ?_, ?_⟩
  · intro h1 h2
    have hok : classify (mergeOptions dflt (some opts)).expect_non_zero_exit
        ((exec (mergeOptions dflt (some opts))
          (resolveTimeout (mergeOptions dflt (some opts))) 0)).2 = .ok r := by
      rw [hexec, classify]
      simp [hmerge, h1, h2]
    simpa [run] using runAux_okFirst _ _ _ _ r hok _
  · intro h1 h2
    rw [classify]
    simp [hmerge, h1, h2]
  · intro h1
    have hok : classify (mergeOptions dflt (some opts)).expect_non_zero_exit
        ((exec (mergeOptions dflt (some opts))
          (resolveTimeout (mergeOptions dflt (some opts))) 0)).2 = .ok r := by
      rw [hexec, classify]
      simp [hmerge, h1]
    simpa [run] using runAux_okFirst _ _ _ _ r hok _

/-- C7 witness: a completed process with exit code 0, default options
(`expect_non_zero_exit` unset), `retries = 3`: one attempt, the result is
returned as a success. -/
theorem C7_success_classification_witness :
    (run {} (some { retries := some 3 })
      (fun _ _ _ =>
        ([], .ok { exit_code := 0, stdout := "out", stderr := "",
                   duration := 1, command := "cmd", args := [] }))).2 =
      .ok { exit_code := 0, stdout := "out", stderr := "",
            duration := 1, command := "cmd", args := [] } 1 := by
  exact (C7_success_classification {} { retries := some 3 }
    { exit_code := 0, stdout := "out", stderr := "", duration := 1,
      command := "cmd", args := [] }
    (fun _ _ _ =>
      ([], .ok { exit_code := 0, stdout := "out", stderr := "",
                 duration := 1, command := "cmd", args := [] }))
    rfl).1 rfl rfl

/-- `termPhase` when an early child raises an unexpected error: the children
before it that existed are signalled (a vanished child is skipped benignly
and the walk continues), the `AccessDenied` child makes the exception escape
the loop, and no later child of the snapshot is reached. -/
theorem termPhase_abort (cs1 : List ProcSig) (c : ProcSig) (cs2 : List ProcSig)
    (h1 : ∀ x ∈ cs1, x.termOutcome = .ok ∨ x.termOutcome = .noSuchProcess)
    (hc : c.termOutcome = .accessDenied) :
    termPhase (cs1 ++ c :: cs2) =
      ((cs1.filter (fun x => x.termOutcome == SigOutcome.ok)).map
        (fun x => KEvent.term x.pid), true) := by
  induction cs1 with
  | nil =>
    unfold termPhase
    rw [List.nil_append, sweepList_cons]
    have hsig : trySignal c.termOutcome (KEvent.term c.pid) = ([], true) := by
      rw [hc]
      rfl
    simp [hsig]
  | cons a cs1 ih =>
    have ha := h1 a (List.mem_cons_self a cs1)
    have hrest := ih (fun x hx => h1 x (List.mem_cons_of_mem a hx))
    unfold termPhase at hrest ⊢
    rw [List.cons_append, sweepList_cons]
    rcases ha with ha | ha
    · have hsig : trySignal a.termOutcome (KEvent.term a.pid) =
          ([KEvent.term a.pid], false) := by
        rw [ha]
        rfl
      simp only [hsig, hrest]
      simp [List.filter_cons, ha]
    · have hsig : trySignal a.termOutcome (KEvent.term a.pid) = ([], false) := by
        rw [ha]
        rfl
      simp only [hsig, hrest]
      simp [List.filter_cons, ha]

/-- C8 (counterexample): a permission error on one child stops the sweep —
with children 101 (`AccessDenied` on terminate) and 102 (alive and
signallable), the sweep aborts before 102 is ever signalled: the trace is
only the warning plus the single-handle fallback, contradicting "the
remaining processes of the tree are still signaled". -/
theorem C8_sweep_aborts_counterexample :
    killProcess { pid := 100 } false { pid := 100, runningAfterGrace := true }
      [{ pid := 101, termOutcome := SigOutcome.accessDenied,
         runningAfterGrace := true },
       { pid := 102, runningAfterGrace := true }] =
      [KEvent.warnTreeKillFailed 100, KEvent.fallbackTerm 100, KEvent.wait 1,
       KEvent.fallbackKill 100] ∧
    KEvent.term 102 ∉ killProcess { pid := 100 } false
      { pid := 100, runningAfterGrace := true }
      [{ pid := 101, termOutcome := SigOutcome.accessDenied,
         runningAfterGrace := true },
       { pid := 102, runningAfterGrace := true }] ∧
    KEvent.kill 102 ∉ killProcess { pid := 100 } false
      { pid := 100, runningAfterGrace := true }
      [{ pid := 101, termOutcome := SigOutcome.accessDenied,
         runningAfterGrace := true },
       { pid := 102, runningAfterGrace := true }] := by
  refine ⟨?_, ?_, ?_⟩ <;> decide

/-- C8 (amended): during the graceful sweep, "process not found" is
swallowed benignly and the walk continues; an unexpected error (permission
denied) on one child is not escalated — `_kill_process` still returns
normally — and is logged as a warning, but it aborts the psutil sweep: the
children walked before the failing one keep their signals, and the function
falls back to terminating and (if needed) killing only the direct child
handle, so tree processes after the failing child are never signalled. -/
theorem C8_sweep_amended (p : ProcHandle) (parent : ProcSig)
    (cs1 : List ProcSig) (c : ProcSig) (cs2 : List ProcSig)
    (halive : p.returncode = none) (hpid : p.pid ≠ 0)
    (h1 : ∀ x ∈ cs1, x.termOutcome = .ok ∨ x.termOutcome = .noSuchProcess)
    (hc : c.termOutcome = .accessDenied) :
    killProcess p false parent (cs1 ++ c :: cs2) =
      (cs1.filter (fun x => x.termOutcome == SigOutcome.ok)).map
        (fun x => KEvent.term x.pid) ++ killFallback p ∧
    KEvent.warnTreeKillFailed p.pid ∈ killProcess p false parent (cs1 ++ c :: cs2) := by
  have ht := termPhase_abort cs1 c cs2 h1 hc
  have hmain : killProcess p false parent (cs1 ++ c :: cs2) =
      (cs1.filter (fun x => x.termOutcome == SigOutcome.ok)).map
        (fun x => KEvent.term x.pid) ++ killFallback p := by
    simp [killProcess, halive, hpid, ht]
  refine ⟨hmain, ?_⟩
  rw [hmain]
  simp [killFallback]

/-- C8 witness: children 101 (alive), 102 (vanished, skipped benignly),
103 (`AccessDenied`), 104 (never reached): the warning is in the trace and
the function returned a trace at all (no escalation). -/
theorem C8_sweep_amended_witness :
    KEvent.warnTreeKillFailed 100 ∈ killProcess { pid := 100 } false { pid := 100 }
      ([{ pid := 101 }, { pid := 102, termOutcome := SigOutcome.noSuchProcess }] ++
        { pid := 103, termOutcome := SigOutcome.accessDenied } ::
          [{ pid := 104 }]) := by
  exact (C8_sweep_amended { pid := 100 } { pid := 100 }
    [{ pid := 101 }, { pid := 102, termOutcome := SigOutcome.noSuchProcess }]
    { pid := 103, termOutcome := SigOutcome.accessDenied } [{ pid := 104 }]
    rfl (by decide) (by decide) rfl).2

/-- A key bound in the per-call overlay keeps the per-call value after the
dict merge. -/
theorem dictMerge_lookup_right (a b : List (String × String)) (k v : String)
    (h : b.lookup k = some v) : (dictMerge a b).lookup k = some v := by
  induction a with
  | nil => simpa [dictMerge] using h
  | cons kv a ih =>
    obtain ⟨k1, v1⟩ := kv
    unfold dictMerge at ih ⊢
    rw [List.filter_cons]
    by_cases hk : (b.lookup (k1, v1).1).isNone
    · have hne : (k == k1) = false := by
        apply beq_eq_false_iff_ne.mpr
        intro hkk
        simp only at hk
        rw [← hkk, h] at hk
        simp at hk
      rw [if_pos hk, List.cons_append]
      simp only [List.lookup, hne]
      exact ih
    · rw [if_neg hk]
      exact ih

/-- A key not bound in the per-call overlay falls back to the default
overlay's binding after the dict merge. -/
theorem dictMerge_lookup_left (a b : List (String × String)) (k : String)
    (h : b.lookup k = none) : (dictMerge a b).lookup k = a.lookup k := by
  induction a with
  | nil => simpa [dictMerge] using h
  | cons kv a ih =>
    obtain ⟨k1, v1⟩ := kv
    unfold dictMerge at ih ⊢
    rw [List.filter_cons]
    by_cases hk : (b.lookup (k1, v1).1).isNone
    · rw [if_pos hk, List.cons_append]
      by_cases hkk : (k == k1) = true
      · simp only [List.lookup, hkk]
      · have hne : (k == k1) = false := by
          simpa using hkk
        simp only [List.lookup, hne]
        exact ih
    · have hne : (k == k1) = false := by
        apply beq_eq_false_iff_ne.mpr
        intro hkk
        simp only at hk
        rw [← hkk, h] at hk
        simp at hk
      rw [if_neg hk]
      simp only [List.lookup, hne]
      exact ih

/-- C9 (counterexample): a per-call field that is set does not always take
precedence over the default — a per-call `retries = 0` (a set value) is
treated as falsy by the `or`-based merge and loses to a default of 5. -/
theorem C9_merge_counterexample :
    (mergeOptions { retries := some 5 } (some { retries := some 0 })).retries =
      some 5 ∧
    (some 5 : Option Nat) ≠ some 0 := by
  exact ⟨rfl, by decide⟩

/-- C9 (amended): `_merge_options` merges field by field, but with Python
truthiness rather than an is-set marker: an unset (`None`) per-call numeric
or string field falls back to the default and a set truthy value wins, yet
a set falsy value (`0`, `""`) also falls back; the environment overlays are
merged key by key with the per-call binding winning on collision and default
bindings surviving otherwise; and the boolean fields (`shell`,
`log_output`, `expect_non_zero_exit`) always take the per-call value, never
the default. -/
theorem C9_merge_amended (dflt o : CliOptions) (n : Nat) (s k v : String) :
    (mergeOptions dflt none = dflt) ∧
    (o.retries = none → (mergeOptions dflt (some o)).retries = dflt.retries) ∧
    (o.retries = some n → n ≠ 0 → (mergeOptions dflt (some o)).retries = some n) ∧
    (o.timeout = none → (mergeOptions dflt (some o)).timeout = dflt.timeout) ∧
    (o.timeout = some n → n ≠ 0 → (mergeOptions dflt (some o)).timeout = some n) ∧
    (o.retry_delay = none →
      (mergeOptions dflt (some o)).retry_delay = dflt.retry_delay) ∧
    (o.retry_delay = some n → n ≠ 0 →
      (mergeOptions dflt (some o)).retry_delay = some n) ∧
    (o.cwd = none → (mergeOptions dflt (some o)).cwd = dflt.cwd) ∧
    (o.cwd = some s → s ≠ "" → (mergeOptions dflt (some o)).cwd = some s) ∧
    ((o.env.getD []).lookup k = some v →
      ((mergeOptions dflt (some o)).env.getD []).lookup k = some v) ∧
    ((o.env.getD []).lookup k = none →
      ((mergeOptions dflt (some o)).env.getD []).lookup k =
        (dflt.env.getD []).lookup k) ∧
    ((mergeOptions dflt (some o)).expect_non_zero_exit = o.expect_non_zero_exit) ∧
    ((mergeOptions dflt (some o)).shell = o.shell) ∧
    ((mergeOptions dflt (some o)).log_output = o.log_output) := by
  refine ⟨rfl, ?_, ?_, ?_, ?_, ?_, ?_, ?_, ?_, ?_, ?_, rfl, rfl, rfl⟩
  · intro h
    simp [mergeOptions, pyOrOptNat, h]
  · intro h hn
    simp [mergeOptions, pyOrOptNat, h, hn]
  · intro h
    simp [mergeOptions, pyOrOptNat, h]
  · intro h hn
    simp [mergeOptions, pyOrOptNat, h, hn]
  · intro h
    simp [mergeOptions, pyOrOptNat, h]
  · intro h hn
    simp [mergeOptions, pyOrOptNat, h, hn]
  · intro h
    simp [mergeOptions, pyOrOptStr, h]
  · intro h hs
    simp [mergeOptions, pyOrOptStr, h, hs]
  · intro h
    exact dictMerge_lookup_right (dflt.env.getD []) (o.env.getD []) k v h
  · intro h
    exact dictMerge_lookup_left (dflt.env.getD []) (o.env.getD []) k h

/-- C9 witness: an unset per-call `retries` falls back to the default 7; a
set truthy per-call `retries = 4` wins; on the shared env key `"B"` the
per-call binding wins while the default-only key `"A"` survives. -/
theorem C9_merge_amended_witness :
    (mergeOptions { retries := some 7 } (some { retries := none })).retries =
      some 7 ∧
    (mergeOptions {} (some { retries := some 4 })).retries = some 4 ∧
    ((mergeOptions { env := some [("A", "d"), ("B", "db")] }
      (some { env := some [("B", "p")] })).env.getD []).lookup "B" = some "p" ∧
    ((mergeOptions { env := some [("A", "d"), ("B", "db")] }
      (some { env := some [("B", "p")] })).env.getD []).lookup "A" = some "d" := by
  refine ⟨?_, ?_, ?_, ?_⟩
  · exact (C9_merge_amended { retries := some 7 } { retries := none }
      0 "" "" "").2.1 rfl
  · exact (C9_merge_amended {} { retries := some 4 } 4 "" "" "").2.2.1
      rfl (by decide)
  · exact (C9_merge_amended { env := some [("A", "d"), ("B", "db")] }
      { env := some [("B", "p")] } 0 "" "B" "p").2.2.2.2.2.2.2.2.2.1 (by decide)
  · have h := (C9_merge_amended { env := some [("A", "d"), ("B", "db")] }
      { env := some [("B", "p")] } 0 "" "A" "d").2.2.2.2.2.2.2.2.2.2.1 (by decide)
    rw [h]
    decide

/-- C10: the structured "CLI command" log event emitted on each attempt of
`az_login_service_principal` contains the client secret verbatim in its
argument list (`log_cli_command` logs `args` unredacted, and the secret is
the `-p` argument), and two executions differing only in the secret produce
different log traces — the redaction claim fails on the code. -/
theorem C10_secret_logged :
    (Event.cliCommandLog "az"
        (azLoginServicePrincipalArgs "app-id" "s3cret-value" "tenant-id")
        osGetcwd) ∈
      (azLoginServicePrincipal {} none "app-id" "s3cret-value" "tenant-id").1 ∧
    "s3cret-value" ∈
      azLoginServicePrincipalArgs "app-id" "s3cret-value" "tenant-id" ∧
    (azLoginServicePrincipal {} none "app-id" "s3cret-value" "tenant-id").1 ≠
      (azLoginServicePrincipal {} none "app-id" "other-secret" "tenant-id").1 := by
  refine ⟨?_, ?_, ?_⟩ <;> decide

end CliRunner
